import Mathlib

/-!
# gofoundryvtt: the client core (`client.go`)

A shallow embedding of `client.go`: the configuration record with its
defaulting and validation, the connection state machine (`Connect`, `Close`,
`State`, `setState`) and the state-listener registry
(`OnConnectionStateChange` and the unregister closure it returns).

Modelling conventions.

* Go `int` and `time.Duration` (an `int64` count of nanoseconds) are `Int`;
  no arithmetic is performed on them, only comparison with zero.
* A Go `error` is `Option Error`, `none` being `nil`.  A `*Client` result is
  `Option Client`, `none` being the nil pointer.
* A listener is a Go function value.  It is represented by an identifier of
  type `Listener`; a slot of the registry is an `Option Listener`, `none`
  being the nil function value (the only function value Go can compare).
* `setState` starts a goroutine that calls every listener of a private copy
  of the registry with the new state.  The embedding records that goroutine
  as a `Batch` (the copy and the state) in the list of batches an operation
  returns.  The mutex is not modelled: every operation below runs as one
  atomic step, which is what `c.mu` provides.
* The unregister closure captures two variables, `index` and `unregistered`.
  They are the fields of `Unregister`; calling the closure is
  `Unregister.call`, which returns the closure with its updated variables.
-/

namespace Gofoundryvtt

/-! ## Errors -/

/-- The error values of the package: the six sentinel errors, an error made by
`fmt.Errorf` from a constant text, and an error made by `fmt.Errorf` with a
`%w` verb (a text placed before a wrapped error). -/
inductive Error where
  | ErrNotFound
  | ErrTimeout
  | ErrNotConnected
  | ErrAlreadyConnected
  | ErrAuthFailed
  | ErrInvalidResponse
  | errorf (text : String)
  | wrapf (lead : String) (inner : Error)
  deriving DecidableEq, Repr

/-- The text `err.Error()` returns. -/
def Error.message : Error → String
  | .ErrNotFound => "entity not found"
  | .ErrTimeout => "request timeout"
  | .ErrNotConnected => "not connected to FoundryVTT"
  | .ErrAlreadyConnected => "already connected to FoundryVTT"
  | .ErrAuthFailed => "authentication failed"
  | .ErrInvalidResponse => "invalid response from server"
  | .errorf text => text
  | .wrapf lead inner => lead ++ inner.message

/-! ## Connection state -/

/-- The type `ConnectionState` is a Go `int`. -/
abbrev ConnectionState := Int

/-- No active connection (`iota` = 0). -/
def StateDisconnected : ConnectionState := 0

/-- Connection in progress. -/
def StateConnecting : ConnectionState := 1

/-- Active connection. -/
def StateConnected : ConnectionState := 2

/-- Attempting to reconnect after a disconnect. -/
def StateReconnecting : ConnectionState := 3

/-- The method `ConnectionState.String`. -/
def ConnectionState.String (s : ConnectionState) : String :=
  if s = StateDisconnected then "disconnected"
  else if s = StateConnecting then "connecting"
  else if s = StateConnected then "connected"
  else if s = StateReconnecting then "reconnecting"
  else "unknown"

/-! ## Configuration -/

/-- One second as a `time.Duration`: 10^9 nanoseconds. -/
def Second : Int := 1000000000

/-- The record `Config`. -/
structure Config where
  URL : String
  Token : String
  WorldID : String
  FoundryVersion : String
  SystemID : String
  CustomName : String
  RequestTimeout : Int
  PingInterval : Int
  MaxReconnectAttempts : Int
  ReconnectBaseDelay : Int
  deriving DecidableEq, Repr

/-- The method `Config.setDefaults`: five guarded assignments, in the order of
the source.  The receiver is a pointer; the updated record is returned. -/
def Config.setDefaults (c : Config) : Config :=
  let c := if c.FoundryVersion = "" then { c with FoundryVersion := "13" } else c
  let c := if c.RequestTimeout = 0 then { c with RequestTimeout := 5 * Second } else c
  let c := if c.PingInterval = 0 then { c with PingInterval := 30 * Second } else c
  let c := if c.MaxReconnectAttempts = 0 then { c with MaxReconnectAttempts := 20 } else c
  let c := if c.ReconnectBaseDelay = 0 then { c with ReconnectBaseDelay := 1 * Second } else c
  c

/-- The method `Config.validate`: the first missing required field, in the
order URL, Token, WorldID, or `none` (nil). -/
def Config.validate (c : Config) : Option Error :=
  if c.URL = "" then some (Error.errorf "URL is required")
  else if c.Token = "" then some (Error.errorf "Token is required")
  else if c.WorldID = "" then some (Error.errorf "WorldID is required")
  else none

/-! ## Client -/

/-- The identity of a (non-nil) listener function. -/
abbrev Listener := Nat

/-- The record `Client`, without its mutex. -/
structure Client where
  config : Config
  state : ConnectionState
  stateListeners : List (Option Listener)
  deriving DecidableEq, Repr

/-- The goroutine started by `setState`: it calls every entry of `listeners`,
in order, with `state`. -/
structure Batch where
  listeners : List (Option Listener)
  state : ConnectionState
  deriving DecidableEq, Repr

/-- The calls a batch makes to the listener `l`: one entry per call, holding
the state passed.  The loop of the goroutine stops at the first nil entry
(calling a nil function value panics), so only the entries before it count. -/
def Batch.callsTo (b : Batch) (l : Listener) : List ConnectionState :=
  ((b.listeners.takeWhile (fun x => x.isSome)).filter (fun x => x = some l)).map
    (fun _ => b.state)

/-- All calls a sequence of batches makes to the listener `l`, oldest batch
first. -/
def notifications (bs : List Batch) (l : Listener) : List ConnectionState :=
  bs.foldr (fun b acc => b.callsTo l ++ acc) []

/-- The function `NewClient`: defaults, then validation; on a validation error
the pair (nil, wrapped error), otherwise a disconnected client with an empty
registry and a nil error. -/
def NewClient (config : Config) : Option Client × Option Error :=
  let config := config.setDefaults
  match config.validate with
  | some err => (none, some (Error.wrapf "invalid config: " err))
  | none => (some { config := config, state := StateDisconnected, stateListeners := [] }, none)

/-- The method `Client.setState`: nothing when the state is unchanged;
otherwise the state is assigned and one batch over a copy of the registry is
started. -/
def Client.setState (c : Client) (state : ConnectionState) : Client × List Batch :=
  if c.state = state then (c, [])
  else ({ c with state := state }, [{ listeners := c.stateListeners, state := state }])

/-- What a call of `Connect` or `Close` leaves behind: the client, the error
returned and the batches started, oldest first. -/
structure Outcome where
  client : Client
  err : Option Error
  batches : List Batch
  deriving DecidableEq, Repr

/-- The argument `ctx` of `Connect`; the body never reads it. -/
structure Context where
  cancelled : Bool
  deriving DecidableEq, Repr

/-- The method `Client.Connect`. -/
def Client.Connect (c : Client) (_ctx : Context) : Outcome :=
  if c.state = StateConnected ∨ c.state = StateConnecting then
    { client := c, err := some Error.ErrAlreadyConnected, batches := [] }
  else
    let r₁ := c.setState StateConnecting
    let r₂ := r₁.1.setState StateConnected
    { client := r₂.1, err := none, batches := r₁.2 ++ r₂.2 }

/-- The method `Client.Close`. -/
def Client.Close (c : Client) : Outcome :=
  if c.state = StateDisconnected then
    { client := c, err := none, batches := [] }
  else
    let r := c.setState StateDisconnected
    { client := r.1, err := none, batches := r.2 }

/-- The method `Client.State`. -/
def Client.State (c : Client) : ConnectionState := c.state

/-- The variables captured by the closure `OnConnectionStateChange` returns. -/
structure Unregister where
  index : Nat
  unregistered : Bool
  deriving DecidableEq, Repr

/-- The method `Client.OnConnectionStateChange`: the listener is appended, and
the closure returned remembers the length of the registry before the append. -/
def Client.OnConnectionStateChange (c : Client) (listener : Option Listener) :
    Client × Unregister :=
  let index := c.stateListeners.length
  ({ c with stateListeners := c.stateListeners ++ [listener] },
   { index := index, unregistered := false })

/-- The closure returned by `OnConnectionStateChange`: nothing when the flag
is set or the index is past the end; otherwise the slot at `index` is set to
nil, the nil slots are dropped and the flag is set. -/
def Unregister.call (u : Unregister) (c : Client) : Client × Unregister :=
  if u.unregistered = true ∨ u.index ≥ c.stateListeners.length then (c, u)
  else
    let marked := c.stateListeners.set u.index none
    let compacted := marked.filter (fun l => l.isSome)
    ({ c with stateListeners := compacted }, { u with unregistered := true })

/-! ## Drivers

Sequences of calls, used to state properties of repeated or combined calls. -/

/-- Run `Close` `n` times in succession: the final client, the errors
returned (first call first) and all batches started. -/
def closeTimes : Nat → Client → Client × List (Option Error) × List Batch
  | 0, c => (c, [], [])
  | n + 1, c =>
    let r := c.Close
    let rest := closeTimes n r.client
    (rest.1, r.err :: rest.2.1, r.batches ++ rest.2.2)

/-- A call a test or a caller can make on a client.  `unregister k` calls the
closure returned by the `k`-th call of `OnConnectionStateChange` (counted from
zero); `setState s` is the forced transition the tests perform with the mutex
held. -/
inductive Op where
  | connect (ctx : Context)
  | close
  | register (listener : Option Listener)
  | unregister (k : Nat)
  | setState (s : ConnectionState)
  deriving DecidableEq, Repr

/-- The client together with the closures handed out so far (in the order of
their registration) and every batch started so far (oldest first). -/
structure World where
  client : Client
  handles : List Unregister
  batches : List Batch
  deriving DecidableEq, Repr

/-- Perform one call. -/
def World.step (w : World) : Op → World
  | .connect ctx =>
    let r := w.client.Connect ctx
    { w with client := r.client, batches := w.batches ++ r.batches }
  | .close =>
    let r := w.client.Close
    { w with client := r.client, batches := w.batches ++ r.batches }
  | .register listener =>
    let r := w.client.OnConnectionStateChange listener
    { w with client := r.1, handles := w.handles ++ [r.2] }
  | .unregister k =>
    match w.handles.get? k with
    | none => w
    | some u =>
      let r := u.call w.client
      { w with client := r.1, handles := w.handles.set k r.2 }
  | .setState s =>
    let r := w.client.setState s
    { w with client := r.1, batches := w.batches ++ r.2 }

/-- Perform a sequence of calls, first to last. -/
def World.run (w : World) (ops : List Op) : World := ops.foldl World.step w

/-- The configuration used by the tests of `client_test.go`. -/
def testConfig : Config :=
  { URL := "ws://localhost:30000", Token := "test-token", WorldID := "test-world",
    FoundryVersion := "", SystemID := "", CustomName := "",
    RequestTimeout := 0, PingInterval := 0, MaxReconnectAttempts := 0,
    ReconnectBaseDelay := 0 }

/-- The configuration of the test `TestConfig_setDefaults_PreservesExisting`:
every optional setting already has a value. -/
def presetConfig : Config :=
  { URL := "", Token := "", WorldID := "",
    FoundryVersion := "12", SystemID := "", CustomName := "",
    RequestTimeout := 10 * Second, PingInterval := 60 * Second, MaxReconnectAttempts := 5,
    ReconnectBaseDelay := 2 * Second }

/-- The client `NewClient testConfig` returns. -/
def testClient : Client :=
  { config := testConfig.setDefaults, state := StateDisconnected, stateListeners := [] }

/-- The world of a test right after `NewClient testConfig`. -/
def testWorld : World := { client := testClient, handles := [], batches := [] }

/-- The sequence of calls the goroutine of a batch makes, in order: the
listener called and the state passed.  The loop stops at the first nil entry,
where calling the nil function value panics. -/
def Batch.calls (b : Batch) : List (Listener × ConnectionState) :=
  (b.listeners.takeWhile (fun x => x.isSome)).filterMap
    (fun x => x.map (fun l => (l, b.state)))

/-- A call of the public interface of a client.  `unregister k` calls the
closure returned by the `k`-th call of `OnConnectionStateChange`. -/
inductive Call where
  | Connect (ctx : Context)
  | Close
  | State
  | OnConnectionStateChange (listener : Option Listener)
  | unregister (k : Nat)
  deriving DecidableEq, Repr

/-- Perform one public call.  `State` only reads the state field. -/
def World.call (w : World) : Call → World
  | .Connect ctx => w.step (Op.connect ctx)
  | .Close => w.step Op.close
  | .State => w
  | .OnConnectionStateChange listener => w.step (Op.register listener)
  | .unregister k => w.step (Op.unregister k)

/-- Perform a sequence of public calls, first to last. -/
def World.calls (w : World) (cs : List Call) : World := cs.foldl World.call w

/-! ## Theorems -/

/-- C1: for every client whose state is connecting or connected, `Connect`
returns `ErrAlreadyConnected`, leaves the client (state, config and listener
registry) exactly as it was, and starts no notification batch. -/
theorem Connect_already_connected (c : Client) (ctx : Context)
    (h : c.state = StateConnecting ∨ c.state = StateConnected) :
    (c.Connect ctx).err = some Error.ErrAlreadyConnected ∧
    (c.Connect ctx).client = c ∧
    (c.Connect ctx).client.state = c.state ∧
    (c.Connect ctx).client.config = c.config ∧
    (c.Connect ctx).client.stateListeners = c.stateListeners ∧
    (c.Connect ctx).batches = [] := by
  have hg : c.state = StateConnected ∨ c.state = StateConnecting := h.symm
  simp [Client.Connect, hg]

/-- Witness of C1: the test `TestClient_Connect_WhenAlreadyConnected`, a client
forced into the state connected. -/
theorem Connect_already_connected_witness :
    (StateConnected = StateConnecting ∨ StateConnected = StateConnected) ∧
    (Client.Connect { testClient with state := StateConnected } ⟨false⟩).err
      = some Error.ErrAlreadyConnected ∧
    (Client.Connect { testClient with state := StateConnected } ⟨false⟩).client
      = { testClient with state := StateConnected } ∧
    (Client.Connect { testClient with state := StateConnected } ⟨false⟩).batches = [] :=
  have h := Connect_already_connected { testClient with state := StateConnected } ⟨false⟩
    (Or.inr rfl)
  ⟨Or.inr rfl, h.1, h.2.1, h.2.2.2.2.2⟩

/-- On a disconnected client every one of `n` calls of `Close` is the early
return: the client is untouched, every error is nil, no batch is started. -/
theorem closeTimes_disconnected (n : Nat) (c : Client) (h : c.state = StateDisconnected) :
    closeTimes n c = (c, List.replicate n none, []) := by
  induction n with
  | zero => rfl
  | succ k ih => simp [closeTimes, Client.Close, h, ih, List.replicate_succ]

/-- One call of `Close` on a client that is not disconnected. -/
theorem Close_of_not_disconnected (c : Client) (h : c.state ≠ StateDisconnected) :
    c.Close = { client := { c with state := StateDisconnected }, err := none,
                batches := [{ listeners := c.stateListeners, state := StateDisconnected }] } := by
  simp [Client.Close, Client.setState, h]

/-- C2: `Close` is idempotent.  For every client (whatever its state) and every
`n ≥ 1`, `n` successive calls of `Close` all return nil, leave the state
disconnected with config and registry untouched, and start in total no batch
when the client was disconnected and exactly one batch, carrying disconnected
to the registered listeners, when it was not. -/
theorem Close_idempotent (c : Client) (n : Nat) (hn : 1 ≤ n) :
    (closeTimes n c).2.1 = List.replicate n none ∧
    (closeTimes n c).1.state = StateDisconnected ∧
    (closeTimes n c).1 = { c with state := StateDisconnected } ∧
    (closeTimes n c).2.2 =
      (if c.state = StateDisconnected then []
       else [{ listeners := c.stateListeners, state := StateDisconnected }]) ∧
    (closeTimes n c).2.2.length ≤ 1 := by
  obtain ⟨k, rfl⟩ : ∃ k, n = k + 1 := ⟨n - 1, by omega⟩
  by_cases h : c.state = StateDisconnected
  · rw [closeTimes_disconnected (k + 1) c h]
    refine ⟨rfl, h, ?_, by simp [h], by simp⟩
    cases c
    simp_all
  · have hk := closeTimes_disconnected k { c with state := StateDisconnected } rfl
    simp [closeTimes, Close_of_not_disconnected c h, hk, h, List.replicate_succ]

/-- Witness of C2: three calls of `Close` on a connected client with one
listener. -/
theorem Close_idempotent_witness :
    1 ≤ 3 ∧
    (closeTimes 3 { testClient with state := StateConnected, stateListeners := [some 7] }).2.1
      = [none, none, none] ∧
    (closeTimes 3 { testClient with state := StateConnected, stateListeners := [some 7] }).2.2.length
      ≤ 1 :=
  have h := Close_idempotent
    { testClient with state := StateConnected, stateListeners := [some 7] } 3 (by decide)
  ⟨by decide, h.1, h.2.2.2.2⟩

/-- C3 (evaluation at the failing input): two listeners are registered, the
first is unregistered, then the second.  The second closure still holds index
1, the registry has length 1 after the compaction, so the call returns early
and the transition that follows still notifies listener 2. -/
theorem unregister_stale_index_still_notified :
    (testWorld.run [Op.register (some 1), Op.register (some 2), Op.unregister 0,
        Op.unregister 1, Op.setState StateConnecting]).batches
      = [{ listeners := [some 2], state := StateConnecting }] ∧
    notifications (testWorld.run [Op.register (some 1), Op.register (some 2),
        Op.unregister 0, Op.unregister 1, Op.setState StateConnecting]).batches 2
      = [StateConnecting] := by
  decide

/-- C4 (evaluation at the failing input): three listeners are registered, the
first is unregistered, then the second.  The second closure still holds index
1, which after the compaction is the slot of listener 3: listener 3 is
removed, listener 2 stays, and the closure of listener 3 (index 2, past the
end) can no longer remove anything. -/
theorem unregister_stale_index_removes_other :
    (testWorld.run [Op.register (some 1), Op.register (some 2), Op.register (some 3),
        Op.unregister 0]).client.stateListeners = [some 2, some 3] ∧
    (testWorld.run [Op.register (some 1), Op.register (some 2), Op.register (some 3),
        Op.unregister 0, Op.unregister 1]).client.stateListeners = [some 2] ∧
    (testWorld.run [Op.register (some 1), Op.register (some 2), Op.register (some 3),
        Op.unregister 0, Op.unregister 1, Op.unregister 2]).client.stateListeners
      = [some 2] := by
  decide

/-- C5 (counterexample): a client in the state reconnecting is not
disconnected, yet `Connect` returns nil, not `ErrAlreadyConnected`. -/
theorem Connect_reconnecting_no_error :
    StateReconnecting ≠ StateDisconnected ∧
    (Client.Connect { testClient with state := StateReconnecting } ⟨false⟩).err = none ∧
    (Client.Connect { testClient with state := StateReconnecting } ⟨false⟩).err
      ≠ some Error.ErrAlreadyConnected := by
  decide

/-- C5 (amended): `Connect` fails with `ErrAlreadyConnected` exactly when the
state is connecting or connected; in the state reconnecting it returns nil and
leaves the client connected. -/
theorem Connect_fails_iff (c : Client) (ctx : Context) :
    ((c.Connect ctx).err = some Error.ErrAlreadyConnected ↔
      (c.state = StateConnecting ∨ c.state = StateConnected)) ∧
    (c.state = StateReconnecting →
      (c.Connect ctx).err = none ∧ (c.Connect ctx).client.state = StateConnected) := by
  constructor
  · by_cases hg : c.state = StateConnected ∨ c.state = StateConnecting
    · simp [Client.Connect, hg, hg.symm]
    · have hn : ¬ (c.state = StateConnecting ∨ c.state = StateConnected) :=
        fun h => hg h.symm
      simp [Client.Connect, hg, hn]
  · intro h
    simp [Client.Connect, Client.setState, h, StateReconnecting, StateConnected,
      StateConnecting]

/-- Witness of C5 (amended): the reconnecting test client. -/
theorem Connect_fails_iff_witness :
    (Client.Connect { testClient with state := StateReconnecting } ⟨false⟩).err = none ∧
    (Client.Connect { testClient with state := StateReconnecting } ⟨false⟩).client.state
      = StateConnected :=
  (Connect_fails_iff { testClient with state := StateReconnecting } ⟨false⟩).2 rfl

/-- The five guarded assignments of `setDefaults` touch none of URL, Token,
WorldID, SystemID and CustomName. -/
theorem setDefaults_frame (c : Config) :
    c.setDefaults.URL = c.URL ∧ c.setDefaults.Token = c.Token ∧
    c.setDefaults.WorldID = c.WorldID ∧ c.setDefaults.SystemID = c.SystemID ∧
    c.setDefaults.CustomName = c.CustomName := by
  simp only [Config.setDefaults]
  split_ifs <;> simp

/-- The method `validate` depends on URL, Token and WorldID only, so it gives
the same answer before and after `setDefaults`. -/
theorem validate_setDefaults (c : Config) : c.setDefaults.validate = c.validate := by
  obtain ⟨h₁, h₂, h₃, -, -⟩ := setDefaults_frame c
  simp only [Config.validate, h₁, h₂, h₃]

/-- The method `validate` returns an error exactly when a required field is
empty. -/
theorem validate_ne_none_iff (c : Config) :
    c.validate ≠ none ↔ (c.URL = "" ∨ c.Token = "" ∨ c.WorldID = "") := by
  simp only [Config.validate]
  split_ifs <;> simp_all

/-- The two results of `NewClient`, by the answer of `validate`. -/
theorem NewClient_eq (cfg : Config) :
    NewClient cfg =
      match cfg.validate with
      | some err => (none, some (Error.wrapf "invalid config: " err))
      | none => (some { config := cfg.setDefaults, state := StateDisconnected,
                        stateListeners := [] }, none) := by
  simp only [NewClient, validate_setDefaults]

/-- C6: construction fails exactly on a missing required field.  For every
`Config`, `validate` returns an error if and only if URL, Token or WorldID is
empty, and so does `NewClient`; when `NewClient` returns an error the client is
nil, and when it returns no error the client is not nil. -/
theorem NewClient_fails_iff_missing (cfg : Config) :
    (cfg.validate ≠ none ↔ (cfg.URL = "" ∨ cfg.Token = "" ∨ cfg.WorldID = "")) ∧
    ((NewClient cfg).2 ≠ none ↔ (cfg.URL = "" ∨ cfg.Token = "" ∨ cfg.WorldID = "")) ∧
    ((NewClient cfg).2 ≠ none → (NewClient cfg).1 = none) ∧
    ((NewClient cfg).2 = none → (NewClient cfg).1 ≠ none) := by
  have hv := validate_ne_none_iff cfg
  refine ⟨hv, ?_, ?_, ?_⟩
  · rw [← hv, NewClient_eq]
    cases cfg.validate <;> simp
  · rw [NewClient_eq]
    cases cfg.validate <;> simp
  · rw [NewClient_eq]
    cases cfg.validate <;> simp

/-- Witness of C6: the "invalid config" case of `TestNewClient` (only the URL
is set) returns an error and a nil client. -/
theorem NewClient_fails_iff_missing_witness :
    (NewClient { testConfig with Token := "", WorldID := "" }).2 ≠ none ∧
    (NewClient { testConfig with Token := "", WorldID := "" }).1 = none :=
  have h := NewClient_fails_iff_missing { testConfig with Token := "", WorldID := "" }
  ⟨h.2.1.mpr (Or.inr (Or.inl rfl)), h.2.2.1 (h.2.1.mpr (Or.inr (Or.inl rfl)))⟩

/-- C7: for every `Config` with non-empty URL, Token and WorldID whose five
optional settings are zero-valued, `NewClient` returns no error and a client
whose stored config holds the defaults ("13", 5s, 30s, 20, 1s, durations in
nanoseconds) with every other field as given, and whose `State()` is
disconnected. -/
theorem NewClient_defaults (cfg : Config)
    (hURL : cfg.URL ≠ "") (hToken : cfg.Token ≠ "") (hWorld : cfg.WorldID ≠ "")
    (hVersion : cfg.FoundryVersion = "") (hTimeout : cfg.RequestTimeout = 0)
    (hPing : cfg.PingInterval = 0) (hMax : cfg.MaxReconnectAttempts = 0)
    (hDelay : cfg.ReconnectBaseDelay = 0) :
    ∃ c : Client, NewClient cfg = (some c, none) ∧
      c.config.FoundryVersion = "13" ∧
      c.config.RequestTimeout = 5000000000 ∧
      c.config.PingInterval = 30000000000 ∧
      c.config.MaxReconnectAttempts = 20 ∧
      c.config.ReconnectBaseDelay = 1000000000 ∧
      c.config.URL = cfg.URL ∧ c.config.Token = cfg.Token ∧
      c.config.WorldID = cfg.WorldID ∧ c.config.SystemID = cfg.SystemID ∧
      c.config.CustomName = cfg.CustomName ∧
      c.State = StateDisconnected := by
  have hv : cfg.validate = none := by simp [Config.validate, hURL, hToken, hWorld]
  refine ⟨{ config := cfg.setDefaults, state := StateDisconnected, stateListeners := [] },
    ?_, ?_⟩
  · rw [NewClient_eq, hv]
  · simp [Config.setDefaults, hVersion, hTimeout, hPing, hMax, hDelay, Second, Client.State]

/-- Witness of C7: the scenario of the specification, the config with URL
"ws://h:1", Token "t" and WorldID "w". -/
theorem NewClient_defaults_witness :
    ∃ c : Client,
      NewClient { testConfig with URL := "ws://h:1", Token := "t", WorldID := "w" }
        = (some c, none) ∧
      c.config.FoundryVersion = "13" ∧
      c.config.RequestTimeout = 5000000000 ∧
      c.config.PingInterval = 30000000000 ∧
      c.config.MaxReconnectAttempts = 20 ∧
      c.config.ReconnectBaseDelay = 1000000000 ∧
      c.config.URL = "ws://h:1" ∧ c.config.Token = "t" ∧
      c.config.WorldID = "w" ∧ c.config.SystemID = "" ∧
      c.config.CustomName = "" ∧
      c.State = StateDisconnected :=
  NewClient_defaults { testConfig with URL := "ws://h:1", Token := "t", WorldID := "w" }
    (by decide) (by decide) (by decide) rfl rfl rfl rfl rfl

/-- A client returned by `NewClient` is disconnected, has an empty registry
and stores the defaulted config. -/
theorem NewClient_some (cfg : Config) (c : Client) (h : NewClient cfg = (some c, none)) :
    c = { config := cfg.setDefaults, state := StateDisconnected, stateListeners := [] } := by
  rw [NewClient_eq] at h
  cases hv : cfg.validate with
  | none =>
    rw [hv] at h
    simp only [Prod.mk.injEq, Option.some.injEq, and_true] at h
    exact h.symm
  | some e =>
    rw [hv] at h
    simp at h

/-- C8: on a freshly constructed client with one registered listener `l`, a
forced transition to connecting starts exactly one batch, which calls `l`
exactly once, with connecting; after the unregister closure is called, a
forced transition to connected starts a batch over an empty copy of the
registry, so the calls made to `l` over the whole scenario are still that one
call. -/
theorem listener_scenario (cfg : Config) (c : Client) (l : Listener)
    (h : NewClient cfg = (some c, none)) :
    (World.run { client := c, handles := [], batches := [] }
        [Op.register (some l), Op.setState StateConnecting]).batches
      = [{ listeners := [some l], state := StateConnecting }] ∧
    notifications (World.run { client := c, handles := [], batches := [] }
        [Op.register (some l), Op.setState StateConnecting]).batches l
      = [StateConnecting] ∧
    (World.run { client := c, handles := [], batches := [] }
        [Op.register (some l), Op.setState StateConnecting, Op.unregister 0,
         Op.setState StateConnected]).batches
      = [{ listeners := [some l], state := StateConnecting },
         { listeners := [], state := StateConnected }] ∧
    notifications (World.run { client := c, handles := [], batches := [] }
        [Op.register (some l), Op.setState StateConnecting, Op.unregister 0,
         Op.setState StateConnected]).batches l
      = [StateConnecting] ∧
    notifications [{ listeners := [], state := StateConnected }] l = [] := by
  have hc := NewClient_some cfg c h
  subst hc
  simp [World.run, World.step, Client.OnConnectionStateChange, Client.setState,
    Unregister.call, Batch.callsTo, notifications, StateDisconnected, StateConnecting,
    StateConnected]

/-- Witness of C8: the test `TestClient_OnConnectionStateChange`, with the
test's config and a listener named 1. -/
theorem listener_scenario_witness :
    NewClient testConfig = (some testClient, none) ∧
    notifications (World.run { client := testClient, handles := [], batches := [] }
        [Op.register (some 1), Op.setState StateConnecting, Op.unregister 0,
         Op.setState StateConnected]).batches 1
      = [StateConnecting] :=
  ⟨by decide, (listener_scenario testConfig testClient 1 (by decide)).2.2.2.1⟩

/-- C9: the unregister closure is idempotent.  For every client and every
closure (whatever its index and flag), calling it a second time right after
the first changes neither the client (state, config, registry) nor the
closure. -/
theorem unregister_idempotent (u : Unregister) (c : Client) :
    (u.call c).2.call (u.call c).1 = u.call c ∧
    ((u.call c).2.call (u.call c).1).1.state = (u.call c).1.state ∧
    ((u.call c).2.call (u.call c).1).1.stateListeners = (u.call c).1.stateListeners := by
  have key : (u.call c).2.call (u.call c).1 = u.call c := by
    by_cases hg : u.unregistered = true ∨ u.index ≥ c.stateListeners.length
    · simp only [Unregister.call, if_pos hg]
    · simp [Unregister.call, if_neg hg]
  exact ⟨key, by rw [key], by rw [key]⟩

/-- The result of `setDefaults`, field by field: each optional setting is
replaced by its default exactly when it is zero-valued, the other fields are
copied. -/
theorem setDefaults_eq (c : Config) :
    c.setDefaults =
      { URL := c.URL, Token := c.Token, WorldID := c.WorldID,
        FoundryVersion := if c.FoundryVersion = "" then "13" else c.FoundryVersion,
        SystemID := c.SystemID, CustomName := c.CustomName,
        RequestTimeout := if c.RequestTimeout = 0 then 5 * Second else c.RequestTimeout,
        PingInterval := if c.PingInterval = 0 then 30 * Second else c.PingInterval,
        MaxReconnectAttempts :=
          if c.MaxReconnectAttempts = 0 then 20 else c.MaxReconnectAttempts,
        ReconnectBaseDelay :=
          if c.ReconnectBaseDelay = 0 then 1 * Second else c.ReconnectBaseDelay } := by
  obtain ⟨url, tok, w, fv, sys, cn, rt, pg, mx, rd⟩ := c
  by_cases h₁ : fv = "" <;> by_cases h₂ : rt = 0 <;> by_cases h₃ : pg = 0 <;>
    by_cases h₄ : mx = 0 <;> by_cases h₅ : rd = 0 <;>
    simp [Config.setDefaults, h₁, h₂, h₃, h₄, h₅]

/-- C10: `setDefaults` preserves what is already set.  Each of FoundryVersion,
RequestTimeout, PingInterval, MaxReconnectAttempts and ReconnectBaseDelay that
is non-empty (non-zero) before the call has the same value after it, and URL,
Token, WorldID, SystemID and CustomName are never changed. -/
theorem setDefaults_preserves (c : Config) :
    (c.FoundryVersion ≠ "" → c.setDefaults.FoundryVersion = c.FoundryVersion) ∧
    (c.RequestTimeout ≠ 0 → c.setDefaults.RequestTimeout = c.RequestTimeout) ∧
    (c.PingInterval ≠ 0 → c.setDefaults.PingInterval = c.PingInterval) ∧
    (c.MaxReconnectAttempts ≠ 0 →
      c.setDefaults.MaxReconnectAttempts = c.MaxReconnectAttempts) ∧
    (c.ReconnectBaseDelay ≠ 0 → c.setDefaults.ReconnectBaseDelay = c.ReconnectBaseDelay) ∧
    c.setDefaults.URL = c.URL ∧ c.setDefaults.Token = c.Token ∧
    c.setDefaults.WorldID = c.WorldID ∧ c.setDefaults.SystemID = c.SystemID ∧
    c.setDefaults.CustomName = c.CustomName := by
  refine ⟨?_, ?_, ?_, ?_, ?_, setDefaults_frame c⟩ <;>
  · intro h
    rw [setDefaults_eq]
    simp [h]

/-- Witness of C10: the configuration of
`TestConfig_setDefaults_PreservesExisting` keeps its five settings. -/
theorem setDefaults_preserves_witness :
    presetConfig.setDefaults.FoundryVersion = "12" ∧
    presetConfig.setDefaults.RequestTimeout = 10 * Second ∧
    presetConfig.setDefaults.PingInterval = 60 * Second ∧
    presetConfig.setDefaults.MaxReconnectAttempts = 5 ∧
    presetConfig.setDefaults.ReconnectBaseDelay = 2 * Second :=
  have h := setDefaults_preserves presetConfig
  ⟨h.1 (by decide), h.2.1 (by decide), h.2.2.1 (by decide), h.2.2.2.1 (by decide),
   h.2.2.2.2.1 (by decide)⟩

/-- C11: `ConnectionState.String` returns "disconnected", "connecting",
"connected" and "reconnecting" for the four defined states and "unknown" for
every other integer; on the four defined states it is injective. -/
theorem String_of_state :
    ConnectionState.String StateDisconnected = "disconnected" ∧
    ConnectionState.String StateConnecting = "connecting" ∧
    ConnectionState.String StateConnected = "connected" ∧
    ConnectionState.String StateReconnecting = "reconnecting" ∧
    (∀ s : ConnectionState, s ≠ StateDisconnected → s ≠ StateConnecting →
      s ≠ StateConnected → s ≠ StateReconnecting →
      ConnectionState.String s = "unknown") ∧
    (∀ s t : ConnectionState,
      (s = StateDisconnected ∨ s = StateConnecting ∨ s = StateConnected ∨
        s = StateReconnecting) →
      (t = StateDisconnected ∨ t = StateConnecting ∨ t = StateConnected ∨
        t = StateReconnecting) →
      ConnectionState.String s = ConnectionState.String t → s = t) := by
  refine ⟨by decide, by decide, by decide, by decide, ?_, ?_⟩
  · intro s h₀ h₁ h₂ h₃
    simp [ConnectionState.String, h₀, h₁, h₂, h₃]
  · intro s t hs ht
    rcases hs with rfl | rfl | rfl | rfl <;> rcases ht with rfl | rfl | rfl | rfl <;> decide

/-- Witness of C11: the value 999 of `TestConnectionState_String` is none of
the four defined states and prints as "unknown". -/
theorem String_of_state_witness : ConnectionState.String 999 = "unknown" :=
  String_of_state.2.2.2.2.1 999 (by decide) (by decide) (by decide) (by decide)

/-- On a registry without nil entries the goroutine of a batch calls every
entry, in order, with the state of the batch. -/
theorem calls_of_no_nil (reg : List (Option Listener)) (s : ConnectionState)
    (h : ∀ x ∈ reg, x ≠ none) :
    (Batch.calls { listeners := reg, state := s }).map (fun p => some p.1) = reg ∧
    (Batch.calls { listeners := reg, state := s }).map (fun p => p.2)
      = List.replicate reg.length s := by
  induction reg with
  | nil => simp [Batch.calls]
  | cons x xs ih =>
    have hx : x ≠ none := h x (List.mem_cons_self x xs)
    have hxs : ∀ y ∈ xs, y ≠ none := fun y hy => h y (List.mem_cons_of_mem x hy)
    obtain ⟨l, rfl⟩ := Option.ne_none_iff_exists'.mp hx
    have ih' := ih hxs
    simp only [Batch.calls] at ih' ⊢
    simp [List.takeWhile, List.replicate_succ, ih'.1, ih'.2]

/-- C13 (counterexample): `OnConnectionStateChange` appends whatever it is
given, so a nil function value followed by listener 1 is a registry the client
can hold.  The transition to connecting starts one batch over [nil, 1]; its
goroutine panics on the nil entry before it reaches listener 1, so the
registered listener 1 is not called at all. -/
theorem setState_nil_entry_stops_calls :
    (testWorld.run [Op.register none, Op.register (some 1)]).client.stateListeners
      = [none, some 1] ∧
    (testWorld.run [Op.register none, Op.register (some 1)]).client.state
      ≠ StateConnecting ∧
    (testWorld.run [Op.register none, Op.register (some 1),
        Op.setState StateConnecting]).batches
      = [{ listeners := [none, some 1], state := StateConnecting }] ∧
    Batch.calls { listeners := [none, some 1], state := StateConnecting } = [] ∧
    notifications (testWorld.run [Op.register none, Op.register (some 1),
        Op.setState StateConnecting]).batches 1 = [] ∧
    ¬ ((Batch.calls { listeners := [none, some 1], state := StateConnecting }).map
        (fun p => some p.1) = [none, some 1]) := by
  decide

/-- C13 (amended): when the target differs from the current state, `setState`
assigns the target and starts exactly one batch over a copy of the registry as
it is at that moment, in registration order; when no entry of the registry is
a nil function value, that batch calls every registered listener exactly once,
in registration order, each time with the new state.  When the target equals
the current state, `setState` changes nothing and starts no batch. -/
theorem setState_notifies (c : Client) (s : ConnectionState) :
    (c.state ≠ s →
      (c.setState s).1 = { c with state := s } ∧
      (c.setState s).1.state = s ∧
      (c.setState s).2 = [{ listeners := c.stateListeners, state := s }] ∧
      ((∀ x ∈ c.stateListeners, x ≠ none) →
        (Batch.calls { listeners := c.stateListeners, state := s }).map
            (fun p => some p.1) = c.stateListeners ∧
        (Batch.calls { listeners := c.stateListeners, state := s }).map (fun p => p.2)
          = List.replicate c.stateListeners.length s)) ∧
    (c.state = s → c.setState s = (c, [])) := by
  constructor
  · intro h
    refine ⟨by simp [Client.setState, h], by simp [Client.setState, h],
      by simp [Client.setState, h], calls_of_no_nil c.stateListeners s⟩
  · intro h
    simp [Client.setState, h]

/-- Witness of C13 (amended): a disconnected client with the listeners 4 and 9 is moved
to connecting; the batch calls 4, then 9, with connecting. -/
theorem setState_notifies_witness :
    (Client.setState { testClient with stateListeners := [some 4, some 9] }
        StateConnecting).2
      = [{ listeners := [some 4, some 9], state := StateConnecting }] ∧
    (Batch.calls { listeners := [some 4, some 9], state := StateConnecting }).map
        (fun p => some p.1) = [some 4, some 9] :=
  have h := (setState_notifies { testClient with stateListeners := [some 4, some 9] }
    StateConnecting).1 (by decide)
  ⟨h.2.2.1, (h.2.2.2 (by decide)).1⟩

/-- C14: for every client in the state disconnected, `Connect` returns nil,
leaves the client connected (config and registry untouched) and starts exactly
two batches over the registry: the first carries connecting, the second
connected. -/
theorem Connect_from_disconnected (c : Client) (ctx : Context)
    (h : c.state = StateDisconnected) :
    (c.Connect ctx).err = none ∧
    (c.Connect ctx).client.state = StateConnected ∧
    (c.Connect ctx).client = { c with state := StateConnected } ∧
    (c.Connect ctx).batches
      = [{ listeners := c.stateListeners, state := StateConnecting },
         { listeners := c.stateListeners, state := StateConnected }] := by
  simp [Client.Connect, Client.setState, h, StateDisconnected, StateConnected,
    StateConnecting]

/-- Witness of C14: the client of `NewClient testConfig` after one listener
was registered. -/
theorem Connect_from_disconnected_witness :
    Client.state { testClient with stateListeners := [some 1] } = StateDisconnected ∧
    (Client.Connect { testClient with stateListeners := [some 1] } ⟨false⟩).err = none ∧
    (Client.Connect { testClient with stateListeners := [some 1] } ⟨false⟩).batches
      = [{ listeners := [some 1], state := StateConnecting },
         { listeners := [some 1], state := StateConnected }] :=
  have h := Connect_from_disconnected { testClient with stateListeners := [some 1] }
    ⟨false⟩ rfl
  ⟨rfl, h.1, h.2.2.2⟩

/-- C15: `validate` reports the first missing required field in the order URL,
Token, WorldID, with the texts "URL is required", "Token is required" and
"WorldID is required"; `NewClient` returns that error wrapped, its text being
"invalid config: " followed by the text of the wrapped error. -/
theorem validate_reports_first_missing (cfg : Config) :
    (cfg.URL = "" → cfg.validate = some (Error.errorf "URL is required")) ∧
    (cfg.URL ≠ "" → cfg.Token = "" →
      cfg.validate = some (Error.errorf "Token is required")) ∧
    (cfg.URL ≠ "" → cfg.Token ≠ "" → cfg.WorldID = "" →
      cfg.validate = some (Error.errorf "WorldID is required")) ∧
    (∀ e : Error, cfg.validate = some e →
      NewClient cfg = (none, some (Error.wrapf "invalid config: " e)) ∧
      (Error.wrapf "invalid config: " e).message = "invalid config: " ++ e.message ∧
      (e = Error.errorf "URL is required" ∨ e = Error.errorf "Token is required" ∨
        e = Error.errorf "WorldID is required")) := by
  refine ⟨?_, ?_, ?_, ?_⟩
  · intro h₁
    simp [Config.validate, h₁]
  · intro h₁ h₂
    simp [Config.validate, h₁, h₂]
  · intro h₁ h₂ h₃
    simp [Config.validate, h₁, h₂, h₃]
  · intro e he
    refine ⟨by rw [NewClient_eq, he], rfl, ?_⟩
    simp only [Config.validate] at he
    split_ifs at he <;> simp_all

/-- Witness of C15: the empty `Config` of `TestConfig_validate` misses all
three required fields; the URL is the one reported, and `NewClient` returns the
text "invalid config: URL is required". -/
theorem validate_reports_first_missing_witness :
    Config.validate { testConfig with URL := "", Token := "", WorldID := "" }
      = some (Error.errorf "URL is required") ∧
    (NewClient { testConfig with URL := "", Token := "", WorldID := "" }).2.map
        Error.message = some "invalid config: URL is required" :=
  have h := validate_reports_first_missing
    { testConfig with URL := "", Token := "", WorldID := "" }
  have hv := h.1 rfl
  ⟨hv, by rw [(h.2.2.2 _ hv).1]; decide⟩

/-- One public call keeps the state of the client among disconnected and
connected. -/
theorem call_keeps_settled (w : World) (k : Call)
    (h : w.client.state = StateDisconnected ∨ w.client.state = StateConnected) :
    (w.call k).client.state = StateDisconnected ∨
    (w.call k).client.state = StateConnected := by
  cases k with
  | Connect ctx =>
    rcases h with h | h <;>
      simp [World.call, World.step, Client.Connect, Client.setState, h,
        StateDisconnected, StateConnected, StateConnecting]
  | Close =>
    rcases h with h | h <;>
      simp [World.call, World.step, Client.Close, Client.setState, h,
        StateDisconnected, StateConnected]
  | State => exact h
  | OnConnectionStateChange listener =>
    simpa [World.call, World.step, Client.OnConnectionStateChange] using h
  | unregister i =>
    simp only [World.call, World.step]
    cases hu : w.handles.get? i with
    | none => simpa using h
    | some u =>
      by_cases hg : u.unregistered = true ∨ u.index ≥ w.client.stateListeners.length
      · simpa [Unregister.call, hg] using h
      · simpa [Unregister.call, hg] using h

/-- A sequence of public calls keeps the state of the client among
disconnected and connected. -/
theorem calls_keep_settled (cs : List Call) (w : World)
    (h : w.client.state = StateDisconnected ∨ w.client.state = StateConnected) :
    (w.calls cs).client.state = StateDisconnected ∨
    (w.calls cs).client.state = StateConnected := by
  induction cs generalizing w with
  | nil => exact h
  | cons k ks ih => exact ih (w.call k) (call_keeps_settled w k h)

/-- C16: starting from a client returned by `NewClient`, after any finite
sequence of the public calls `Connect`, `Close`, `State`,
`OnConnectionStateChange` and returned unregister closures, `State()` is
disconnected or connected, and so is neither connecting nor reconnecting. -/
theorem State_settled_after_calls (cfg : Config) (c : Client) (cs : List Call)
    (h : NewClient cfg = (some c, none)) :
    ((World.calls { client := c, handles := [], batches := [] } cs).client.State
        = StateDisconnected ∨
      (World.calls { client := c, handles := [], batches := [] } cs).client.State
        = StateConnected) ∧
    (World.calls { client := c, handles := [], batches := [] } cs).client.State
      ≠ StateConnecting ∧
    (World.calls { client := c, handles := [], batches := [] } cs).client.State
      ≠ StateReconnecting := by
  have hc := NewClient_some cfg c h
  have h₀ : (World.mk c [] []).client.state = StateDisconnected ∨
      (World.mk c [] []).client.state = StateConnected := by
    left
    rw [hc]
  have key := calls_keep_settled cs (World.mk c [] []) h₀
  simp only [Client.State]
  refine ⟨key, ?_, ?_⟩
  · rcases key with k | k <;> rw [k] <;> decide
  · rcases key with k | k <;> rw [k] <;> decide

/-- Witness of C16: on the test client, register, connect, connect again,
unregister, read the state, close, connect; the state ends connected. -/
theorem State_settled_after_calls_witness :
    NewClient testConfig = (some testClient, none) ∧
    (World.calls { client := testClient, handles := [], batches := [] }
        [Call.OnConnectionStateChange (some 1), Call.Connect ⟨false⟩,
         Call.Connect ⟨false⟩, Call.unregister 0, Call.State, Call.Close,
         Call.Connect ⟨false⟩]).client.State
      ≠ StateConnecting :=
  ⟨by decide, (State_settled_after_calls testConfig testClient
      [Call.OnConnectionStateChange (some 1), Call.Connect ⟨false⟩,
       Call.Connect ⟨false⟩, Call.unregister 0, Call.State, Call.Close,
       Call.Connect ⟨false⟩] (by decide)).2.1⟩

/-- C17: the state machine and the listener registry do not interfere.
`Connect` and `Close` leave the registry and the stored config as they were;
registering a listener and calling an unregister closure leave the state and
the config as they were and start no batch; registering appends the new
listener after the existing entries, which are unchanged. -/
theorem state_and_registry_independent (c : Client) (ctx : Context)
    (l : Option Listener) (u : Unregister) (w : World) (k : Nat) :
    (c.Connect ctx).client.stateListeners = c.stateListeners ∧
    (c.Connect ctx).client.config = c.config ∧
    c.Close.client.stateListeners = c.stateListeners ∧
    c.Close.client.config = c.config ∧
    (c.OnConnectionStateChange l).1.state = c.state ∧
    (c.OnConnectionStateChange l).1.config = c.config ∧
    (c.OnConnectionStateChange l).1.stateListeners = c.stateListeners ++ [l] ∧
    (u.call c).1.state = c.state ∧
    (u.call c).1.config = c.config ∧
    (w.step (Op.register l)).batches = w.batches ∧
    (w.step (Op.unregister k)).batches = w.batches := by
  refine ⟨?_, ?_, ?_, ?_, rfl, rfl, rfl, ?_, ?_, rfl, ?_⟩
  · simp only [Client.Connect, Client.setState]
    split_ifs <;> rfl
  · simp only [Client.Connect, Client.setState]
    split_ifs <;> rfl
  · simp only [Client.Close, Client.setState]
    split_ifs <;> rfl
  · simp only [Client.Close, Client.setState]
    split_ifs <;> rfl
  · simp only [Unregister.call]
    split_ifs <;> rfl
  · simp only [Unregister.call]
    split_ifs <;> rfl
  · simp only [World.step]
    cases w.handles.get? k <;> rfl

/-- C18: `setDefaults` is total on its defaulted fields and idempotent.  After
the call FoundryVersion is non-empty and RequestTimeout, PingInterval,
MaxReconnectAttempts and ReconnectBaseDelay are non-zero, and a second call
changes nothing. -/
theorem setDefaults_idempotent (c : Config) :
    c.setDefaults.FoundryVersion ≠ "" ∧
    c.setDefaults.RequestTimeout ≠ 0 ∧
    c.setDefaults.PingInterval ≠ 0 ∧
    c.setDefaults.MaxReconnectAttempts ≠ 0 ∧
    c.setDefaults.ReconnectBaseDelay ≠ 0 ∧
    c.setDefaults.setDefaults = c.setDefaults := by
  have h₁ : c.setDefaults.FoundryVersion ≠ "" := by
    rw [setDefaults_eq]
    by_cases h : c.FoundryVersion = "" <;> simp [h]
  have h₂ : c.setDefaults.RequestTimeout ≠ 0 := by
    rw [setDefaults_eq]
    by_cases h : c.RequestTimeout = 0 <;> simp [h, Second]
  have h₃ : c.setDefaults.PingInterval ≠ 0 := by
    rw [setDefaults_eq]
    by_cases h : c.PingInterval = 0 <;> simp [h, Second]
  have h₄ : c.setDefaults.MaxReconnectAttempts ≠ 0 := by
    rw [setDefaults_eq]
    by_cases h : c.MaxReconnectAttempts = 0 <;> simp [h]
  have h₅ : c.setDefaults.ReconnectBaseDelay ≠ 0 := by
    rw [setDefaults_eq]
    by_cases h : c.ReconnectBaseDelay = 0 <;> simp [h, Second]
  refine ⟨h₁, h₂, h₃, h₄, h₅, ?_⟩
  rw [setDefaults_eq c.setDefaults]
  simp only [if_neg h₁, if_neg h₂, if_neg h₃, if_neg h₄, if_neg h₅]

end Gofoundryvtt
